import Mathlib

/-!
Verification of the fatfs core (src/fatfs/src) against its specification.

The Rust sources are shallowly embedded: byte streams become `List Nat`
(every element a byte value), fallible operations return `Except IoError`,
unbounded loops take explicit fuel and return `Option` (`none` = fuel ran
out, which never happens on the inputs considered), and machine integers
become `Nat` with explicit masking where the Rust code truncates.
The crate's `fs.rs` (filesystem facade, `DiskSlice`, `strip_non_ascii`) is
not present under src/; those parts are modelled from the spec and marked
as such in their doc comments.  Everything else is translated directly
from table.rs, dir.rs, dir_entry.rs and file.rs.
-/

deriving instance DecidableEq for Except

/-- Error kinds used by the crate (basic_io error kinds observed in the
sources: NotFound, InvalidInput, UnexpectedEof) together with `noSpace`,
which §7 of the spec names for an exhausted free-cluster scan, and a
catch-all `other`. -/
inductive IoError where
  | notFound
  | invalidInput
  | unexpectedEof
  | noSpace
  | other
deriving DecidableEq, Repr

/-- Logical FAT entry, from `enum FatValue` in table.rs. -/
inductive FatValue where
  | free
  | data (n : Nat)
  | bad
  | endOfChain
deriving DecidableEq, Repr

/-- FAT variant tag, from `enum FatType` (fs.rs, re-exported; the variant
set is fixed by table.rs's dispatch). -/
inductive FatType where
  | fat12
  | fat16
  | fat32
deriving DecidableEq, Repr

/-- Read one byte at `pos`; reading past the end of the slice is the
`UnexpectedEof` failure of `read_exact`. -/
def readU8 (bytes : List Nat) (pos : Nat) : Except IoError Nat :=
  if pos + 1 ≤ bytes.length then .ok (bytes.getD pos 0)
  else .error .unexpectedEof

/-- `read_u16::<LittleEndian>` over the slice at `pos`. -/
def readLE16 (bytes : List Nat) (pos : Nat) : Except IoError Nat :=
  if pos + 2 ≤ bytes.length then
    .ok (bytes.getD pos 0 + 256 * bytes.getD (pos + 1) 0)
  else .error .unexpectedEof

/-- `read_u32::<LittleEndian>` over the slice at `pos`. -/
def readLE32 (bytes : List Nat) (pos : Nat) : Except IoError Nat :=
  if pos + 4 ≤ bytes.length then
    .ok (bytes.getD pos 0 + 256 * bytes.getD (pos + 1) 0 +
         65536 * bytes.getD (pos + 2) 0 + 16777216 * bytes.getD (pos + 3) 0)
  else .error .unexpectedEof

/-- `write_u16::<LittleEndian>` at `pos` (v is a u16 value). -/
def writeLE16 (bytes : List Nat) (pos : Nat) (v : Nat) : Except IoError (List Nat) :=
  if pos + 2 ≤ bytes.length then
    .ok (((bytes.set pos (v % 256)).set (pos + 1) (v / 256 % 256)))
  else .error .other

/-- `write_u32::<LittleEndian>` at `pos` (v is a u32 value). -/
def writeLE32 (bytes : List Nat) (pos : Nat) (v : Nat) : Except IoError (List Nat) :=
  if pos + 4 ≤ bytes.length then
    .ok ((((bytes.set pos (v % 256)).set (pos + 1) (v / 256 % 256)).set
          (pos + 2) (v / 65536 % 256)).set (pos + 3) (v / 16777216 % 256))
  else .error .other

/-- `Fat12::get_raw` (table.rs): 16-bit word at `cluster + cluster/2`,
even clusters take the low 12 bits, odd clusters the high 12 bits. -/
def Fat12.getRaw (fat : List Nat) (cluster : Nat) : Except IoError Nat :=
  match readLE16 fat (cluster + cluster / 2) with
  | .error e => .error e
  | .ok packed =>
    .ok (if cluster % 2 = 0 then packed &&& 0xFFF else packed >>> 4)

/-- `Fat12::get` (table.rs): decode the masked value. -/
def Fat12.get (fat : List Nat) (cluster : Nat) : Except IoError FatValue :=
  match Fat12.getRaw fat cluster with
  | .error e => .error e
  | .ok v =>
    .ok (if v = 0 then .free
         else if v = 0xFF7 then .bad
         else if 0xFF8 ≤ v ∧ v ≤ 0xFFF then .endOfChain
         else .data v)

/-- `Fat12::set` (table.rs): read-modify-write of the 16-bit word,
preserving the neighbouring entry's nibble.  `Data(n)` is written as
`n as u16`; the odd-cluster shift is u16 arithmetic. -/
def Fat12.set (fat : List Nat) (cluster : Nat) (value : FatValue) : Except IoError (List Nat) :=
  let rawVal : Nat :=
    match value with
    | .free => 0
    | .bad => 0xFF7
    | .endOfChain => 0xFFF
    | .data n => n % 65536
  let fatOffset := cluster + cluster / 2
  match readLE16 fat fatOffset with
  | .error e => .error e
  | .ok oldPacked =>
    let newPacked :=
      if cluster % 2 = 0 then (oldPacked &&& 0xF000) ||| rawVal
      else (oldPacked &&& 0x000F) ||| ((rawVal <<< 4) % 65536)
    writeLE16 fat fatOffset newPacked

/-- One iteration state step of `Fat12::find_free`'s packed-read loop:
the stream position after the initial 16-bit read is threaded explicitly
(an even step reads a fresh word, an odd step reads one byte and shifts
it into the carried word). -/
def Fat12.findFreeLoop (fat : List Nat) :
    Nat → Nat → Nat → Nat → Option (Except IoError Nat)
  | 0, _, _, _ => none
  | fuel + 1, cluster, packed, pos =>
    let v := if cluster % 2 = 0 then packed &&& 0xFFF else packed >>> 4
    if v = 0 then some (.ok cluster)
    else
      let cluster' := cluster + 1
      if cluster' % 2 = 0 then
        match readLE16 fat pos with
        | .error e => some (.error e)
        | .ok packed' => Fat12.findFreeLoop fat fuel cluster' packed' (pos + 2)
      else
        match readU8 fat pos with
        | .error e => some (.error e)
        | .ok b => Fat12.findFreeLoop fat fuel cluster' ((packed >>> 8) ||| (b <<< 8)) (pos + 1)

/-- `Fat12::find_free` (table.rs). -/
def Fat12.findFree (fuel : Nat) (fat : List Nat) (hint : Nat) : Option (Except IoError Nat) :=
  let fatOffset := hint + hint / 2
  match readLE16 fat fatOffset with
  | .error e => some (.error e)
  | .ok packed => Fat12.findFreeLoop fat fuel hint packed (fatOffset + 2)

/-- `Fat16::get_raw` (table.rs). -/
def Fat16.getRaw (fat : List Nat) (cluster : Nat) : Except IoError Nat :=
  readLE16 fat (cluster * 2)

/-- `Fat16::get` (table.rs). -/
def Fat16.get (fat : List Nat) (cluster : Nat) : Except IoError FatValue :=
  match Fat16.getRaw fat cluster with
  | .error e => .error e
  | .ok v =>
    .ok (if v = 0 then .free
         else if v = 0xFFF7 then .bad
         else if 0xFFF8 ≤ v ∧ v ≤ 0xFFFF then .endOfChain
         else .data v)

/-- `Fat16::set` (table.rs). -/
def Fat16.set (fat : List Nat) (cluster : Nat) (value : FatValue) : Except IoError (List Nat) :=
  let rawVal : Nat :=
    match value with
    | .free => 0
    | .bad => 0xFFF7
    | .endOfChain => 0xFFFF
    | .data n => n % 65536
  writeLE16 fat (cluster * 2) rawVal

/-- `Fat16::find_free` loop (table.rs): sequential 16-bit reads
starting at `2 * hint`. -/
def Fat16.findFreeLoop (fat : List Nat) : Nat → Nat → Option (Except IoError Nat)
  | 0, _ => none
  | fuel + 1, cluster =>
    match readLE16 fat (cluster * 2) with
    | .error e => some (.error e)
    | .ok v =>
      if v = 0 then some (.ok cluster)
      else Fat16.findFreeLoop fat fuel (cluster + 1)

/-- `Fat16::find_free` (table.rs). -/
def Fat16.findFree (fuel : Nat) (fat : List Nat) (hint : Nat) : Option (Except IoError Nat) :=
  Fat16.findFreeLoop fat fuel hint

/-- `Fat32::get_raw` (table.rs): 32-bit word at `4 * cluster` masked to
the low 28 bits. -/
def Fat32.getRaw (fat : List Nat) (cluster : Nat) : Except IoError Nat :=
  match readLE32 fat (cluster * 4) with
  | .error e => .error e
  | .ok v => .ok (v &&& 0x0FFFFFFF)

/-- `Fat32::get` (table.rs). -/
def Fat32.get (fat : List Nat) (cluster : Nat) : Except IoError FatValue :=
  match Fat32.getRaw fat cluster with
  | .error e => .error e
  | .ok v =>
    .ok (if v = 0 then .free
         else if v = 0x0FFFFFF7 then .bad
         else if 0x0FFFFFF8 ≤ v ∧ v ≤ 0x0FFFFFFF then .endOfChain
         else .data v)

/-- `Fat32::set` (table.rs): the raw value is written directly over the
whole 32-bit word (no read-modify-write of the reserved upper 4 bits). -/
def Fat32.set (fat : List Nat) (cluster : Nat) (value : FatValue) : Except IoError (List Nat) :=
  let rawVal : Nat :=
    match value with
    | .free => 0
    | .bad => 0x0FFFFFF7
    | .endOfChain => 0x0FFFFFFF
    | .data n => n % 4294967296
  writeLE32 fat (cluster * 4) rawVal

/-- `Fat32::find_free` loop (table.rs): sequential 32-bit reads starting
at `4 * hint`; the loop has no cluster-count bound, it stops only on a
zero entry or a read error. -/
def Fat32.findFreeLoop (fat : List Nat) : Nat → Nat → Option (Except IoError Nat)
  | 0, _ => none
  | fuel + 1, cluster =>
    match readLE32 fat (cluster * 4) with
    | .error e => some (.error e)
    | .ok w =>
      if w &&& 0x0FFFFFFF = 0 then some (.ok cluster)
      else Fat32.findFreeLoop fat fuel (cluster + 1)

/-- `Fat32::find_free` (table.rs). -/
def Fat32.findFree (fuel : Nat) (fat : List Nat) (hint : Nat) : Option (Except IoError Nat) :=
  Fat32.findFreeLoop fat fuel hint

/-- `read_fat` dispatch (table.rs). -/
def readFat (fat : List Nat) (fatType : FatType) (cluster : Nat) : Except IoError FatValue :=
  match fatType with
  | .fat12 => Fat12.get fat cluster
  | .fat16 => Fat16.get fat cluster
  | .fat32 => Fat32.get fat cluster

/-- `write_fat` dispatch (table.rs). -/
def writeFat (fat : List Nat) (fatType : FatType) (cluster : Nat) (value : FatValue) :
    Except IoError (List Nat) :=
  match fatType with
  | .fat12 => Fat12.set fat cluster value
  | .fat16 => Fat16.set fat cluster value
  | .fat32 => Fat32.set fat cluster value

/-- `get_next_cluster` (table.rs): `Data(n)` continues the chain, every
other value ends it. -/
def getNextCluster (fat : List Nat) (fatType : FatType) (cluster : Nat) :
    Except IoError (Option Nat) :=
  match readFat fat fatType cluster with
  | .error e => .error e
  | .ok (.data n) => .ok (some n)
  | .ok _ => .ok none

/-- `find_free_cluster` dispatch (table.rs). -/
def findFreeCluster (fuel : Nat) (fat : List Nat) (fatType : FatType) (hint : Nat) :
    Option (Except IoError Nat) :=
  match fatType with
  | .fat12 => Fat12.findFree fuel fat hint
  | .fat16 => Fat16.findFree fuel fat hint
  | .fat32 => Fat32.findFree fuel fat hint

/-- `alloc_cluster` (table.rs): find a free cluster starting at 2, mark
it EndOfChain, then link `prev` to it when given.  Returns the new
cluster together with the updated FAT slice. -/
def allocCluster (fuel : Nat) (fat : List Nat) (fatType : FatType) (prevCluster : Option Nat) :
    Option (Except IoError (Nat × List Nat)) :=
  match findFreeCluster fuel fat fatType 2 with
  | none => none
  | some (.error e) => some (.error e)
  | some (.ok newCluster) =>
    match writeFat fat fatType newCluster .endOfChain with
    | .error e => some (.error e)
    | .ok fat1 =>
      match prevCluster with
      | some n =>
        match writeFat fat1 fatType n (.data newCluster) with
        | .error e => some (.error e)
        | .ok fat2 => some (.ok (newCluster, fat2))
      | none => some (.ok (newCluster, fat1))

/-- State of `ClusterIterator` (table.rs): a writable FAT view, the
variant tag, the current cluster and the error latch. -/
structure ClusterIter where
  fat : List Nat
  fatType : FatType
  cluster : Option Nat
  err : Bool
deriving DecidableEq, Repr

/-- `ClusterIterator::next` (table.rs): advance using a FAT lookup and
yield the new current cluster; on a lookup error latch `err` and leave
the cluster unchanged. -/
def ClusterIter.nextStep (s : ClusterIter) : ClusterIter × Option (Except IoError Nat) :=
  if s.err then (s, none)
  else
    match s.cluster with
    | some current =>
      match getNextCluster s.fat s.fatType current with
      | .ok nextCluster =>
        let s' := { s with cluster := nextCluster }
        (s', match nextCluster with
             | some n => some (.ok n)
             | none => none)
      | .error e => ({ s with err := true }, some (.error e))
    | none => (s, none)

/-- `ClusterIterator::free` (table.rs): remember the current cluster,
advance, write Free over the remembered cluster; stop when there was no
remembered cluster.  The `next()` return value is discarded, exactly as
in the source. -/
def ClusterIter.freeLoop : Nat → ClusterIter → Option (Except IoError ClusterIter)
  | 0, _ => none
  | fuel + 1, s =>
    let prev := s.cluster
    let s' := (ClusterIter.nextStep s).1
    match prev with
    | some n =>
      match writeFat s'.fat s'.fatType n .free with
      | .ok fat' => ClusterIter.freeLoop fuel { s' with fat := fat' }
      | .error e => some (.error e)
    | none => some (.ok s')

/-- `ClusterIterator::truncate` (table.rs): write EndOfChain at the
current cluster, then advance, then free the remainder — in exactly that
order. -/
def ClusterIter.truncate (fuel : Nat) (s : ClusterIter) : Option (Except IoError ClusterIter) :=
  match s.cluster with
  | some n =>
    match writeFat s.fat s.fatType n .endOfChain with
    | .error e => some (.error e)
    | .ok fat' =>
      let s1 := { s with fat := fat' }
      let s2 := (ClusterIter.nextStep s1).1
      ClusterIter.freeLoop fuel s2
  | none => some (.ok s)

/-- FAT32 FAT slice with the chain 3 → 4 → 5 → EndOfChain (entries 0 and
1 hold the usual media/EOC marks, entry 2 is free). -/
def c1Fat : List Nat :=
  [0xF8, 0xFF, 0xFF, 0x0F,
   0xFF, 0xFF, 0xFF, 0x0F,
   0x00, 0x00, 0x00, 0x00,
   0x04, 0x00, 0x00, 0x00,
   0x05, 0x00, 0x00, 0x00,
   0xFF, 0xFF, 0xFF, 0x0F]

/-- Iterator into `c1Fat` positioned at cluster 3. -/
def c1Iter : ClusterIter := ⟨c1Fat, .fat32, some 3, false⟩

/-- `c1Fat` after `truncate()`: entry 3 became EndOfChain, entries 4 and
5 are untouched (still Data(5) and EndOfChain). -/
def c1FatAfter : List Nat :=
  [0xF8, 0xFF, 0xFF, 0x0F,
   0xFF, 0xFF, 0xFF, 0x0F,
   0x00, 0x00, 0x00, 0x00,
   0xFF, 0xFF, 0xFF, 0x0F,
   0x05, 0x00, 0x00, 0x00,
   0xFF, 0xFF, 0xFF, 0x0F]

/-- C1: the claim fails on the code.  On the chain 3 → 4 → 5 with the
iterator at cluster 3, `truncate()` writes EndOfChain at cluster 3 and
returns, but the clusters 4 and 5 that followed in the original chain
are NOT set to Free: truncate writes EndOfChain *before* advancing, so
the subsequent `next()` reads the just-written EndOfChain, the iterator
moves to `None`, and `free()` releases nothing.  Entry 4 still reads
Data(5) and entry 5 still reads EndOfChain. -/
theorem c1_truncate_leaks_tail :
    ClusterIter.truncate 8 c1Iter = some (.ok ⟨c1FatAfter, .fat32, none, false⟩) ∧
    Fat32.get c1FatAfter 3 = .ok .endOfChain ∧
    Fat32.get c1FatAfter 4 = .ok (.data 5) ∧
    Fat32.get c1FatAfter 5 = .ok .endOfChain ∧
    FatValue.data 5 ≠ FatValue.free := by
  refine ⟨by decide, by decide, by decide, by decide, by decide⟩

/-- FAT32 FAT slice whose entry 2 has raw word 0xF0000005: reserved
upper nibble 0xF, data bits 0x0000005. -/
def c2Fat : List Nat :=
  [0xF8, 0xFF, 0xFF, 0x0F,
   0xFF, 0xFF, 0xFF, 0x0F,
   0x05, 0x00, 0x00, 0xF0]

/-- C2: the claim fails on the code.  `Fat32::set` writes the canonical
raw value over the whole 32-bit little-endian word: writing `Free` into
the entry for cluster 2 turns the word 0xF0000005 into 0x00000000, so
the reserved upper 4 bits change from 0xF to 0x0 instead of being
preserved. -/
theorem c2_set_clobbers_reserved_bits :
    Fat32.set c2Fat 2 .free =
      .ok [0xF8, 0xFF, 0xFF, 0x0F, 0xFF, 0xFF, 0xFF, 0x0F, 0x00, 0x00, 0x00, 0x00] ∧
    c2Fat.getD 11 0 = 0xF0 ∧
    (0xF0 : Nat) / 16 ≠ (0x00 : Nat) / 16 := by
  refine ⟨by decide, by decide, by decide⟩

/-- A FAT12 FAT region of 16 zero bytes. -/
def c7Fat : List Nat := List.replicate 16 0

/-- `c7Fat` after writing Data(0x123) at cluster 3 and Data(0x456) at
cluster 4 (sequenced exactly as `Fat12::set` does). -/
def c7After : Except IoError (List Nat) :=
  match Fat12.set c7Fat 3 (.data 0x123) with
  | .error e => .error e
  | .ok f1 => Fat12.set f1 4 (.data 0x456)

/-- The concrete byte array produced by the two FAT12 writes: cluster 3
is odd, so its 12 bits are the high 12 bits of the word at bytes 4-5
(0x1230 → 30 12); cluster 4 is even, so its 12 bits are the low 12 bits
of the word at bytes 6-7 (0x0456 → 56 04). -/
def c7Expected : List Nat :=
  [0, 0, 0, 0, 0x30, 0x12, 0x56, 0x04, 0, 0, 0, 0, 0, 0, 0, 0]

/-- C7 counterexample: the claim's byte triple is wrong.  After the two
writes the bytes at FAT offsets 4, 5, 6 are 0x30, 0x12, 0x56 — not the
0x23, 0x61, 0x45 the claim states (that triple would correspond to the
two 12-bit values packed contiguously, but entry 3 occupies the high 12
bits of the word at bytes 4-5 and entry 4 the low 12 bits of the word at
bytes 6-7). -/
theorem c7_byte_triple_counterexample :
    c7After = .ok c7Expected ∧
    c7Expected.getD 4 0 = 0x30 ∧ (0x30 : Nat) ≠ 0x23 := by
  refine ⟨by decide, by decide, by decide⟩

/-- C7 amended: writing Data(0x123) at cluster 3 then Data(0x456) at
cluster 4 on a zeroed FAT12 region makes reads of clusters 3 and 4
return exactly Data(0x123) and Data(0x456), and leaves the three FAT
bytes at offsets 4, 5, 6 equal to 0x30, 0x12, 0x56. -/
theorem c7_fat12_roundtrip_amended :
    c7After = .ok c7Expected ∧
    Fat12.get c7Expected 3 = .ok (.data 0x123) ∧
    Fat12.get c7Expected 4 = .ok (.data 0x456) ∧
    c7Expected.getD 4 0 = 0x30 ∧
    c7Expected.getD 5 0 = 0x12 ∧
    c7Expected.getD 6 0 = 0x56 := by
  refine ⟨by decide, by decide, by decide, by decide, by decide, by decide⟩

/-- Reading a 32-bit word that extends past the end of the FAT slice
fails with UnexpectedEof. -/
theorem readLE32_eof {bytes : List Nat} {pos : Nat} (h : bytes.length < pos + 4) :
    readLE32 bytes pos = .error .unexpectedEof := by
  unfold readLE32
  rw [if_neg (by omega)]

/-- The `Fat32::find_free` loop on a FAT slice whose entries from the
start cluster on are all nonzero never finds a free entry and runs off
the end of the slice, failing with UnexpectedEof (the loop has no
cluster-count bound). -/
theorem c5_findFreeLoop_eof (bytes : List Nat) :
    ∀ (fuel c : Nat),
      (∀ c', c' < bytes.length → c ≤ c' → Fat32.getRaw bytes c' ≠ .ok 0) →
      1 ≤ fuel → bytes.length + 1 ≤ fuel + 4 * c →
      Fat32.findFreeLoop bytes fuel c = some (.error .unexpectedEof) := by
  intro fuel
  induction fuel with
  | zero => intro c _ h1 _; exact absurd h1 (by omega)
  | succ fuel ih =>
    intro c hall _ hlen
    by_cases hr : c * 4 + 4 ≤ bytes.length
    · have hread : readLE32 bytes (c * 4) =
          .ok (bytes.getD (c * 4) 0 + 256 * bytes.getD (c * 4 + 1) 0 +
               65536 * bytes.getD (c * 4 + 2) 0 + 16777216 * bytes.getD (c * 4 + 3) 0) := by
        unfold readLE32
        rw [if_pos hr]
      have hraw : Fat32.getRaw bytes c ≠ .ok 0 := hall c (by omega) (le_refl c)
      have hgetraw : Fat32.getRaw bytes c =
          .ok ((bytes.getD (c * 4) 0 + 256 * bytes.getD (c * 4 + 1) 0 +
                65536 * bytes.getD (c * 4 + 2) 0 + 16777216 * bytes.getD (c * 4 + 3) 0) &&&
               0x0FFFFFFF) := by
        unfold Fat32.getRaw
        rw [hread]
      have hnz : (bytes.getD (c * 4) 0 + 256 * bytes.getD (c * 4 + 1) 0 +
                  65536 * bytes.getD (c * 4 + 2) 0 + 16777216 * bytes.getD (c * 4 + 3) 0) &&&
                  0x0FFFFFFF ≠ 0 := by
        intro hzero
        exact hraw (hgetraw.trans (by rw [hzero]))
      simp only [Fat32.findFreeLoop, hread]
      rw [if_neg hnz]
      exact ih (c + 1) (fun c' h hc => hall c' h (by omega)) (by omega) (by omega)
    · have hread : readLE32 bytes (c * 4) = .error .unexpectedEof :=
        readLE32_eof (by omega)
      simp only [Fat32.findFreeLoop, hread]

/-- C5 amended: on a FAT32 volume whose FAT slice holds no Free entry at
any cluster index from 2 to the end of the slice, `alloc_cluster` fails
with an UnexpectedEof I/O error — the linear scan has no cluster-count
bound and runs off the end of the bounded FAT slice; no NoSpace error is
produced anywhere in the code. -/
theorem c5_alloc_on_full_fat_eof (bytes : List Nat) (fuel : Nat) (prev : Option Nat)
    (hfull : ∀ c', c' < bytes.length → 2 ≤ c' → Fat32.getRaw bytes c' ≠ .ok 0)
    (h1 : 1 ≤ fuel) (hfuel : bytes.length + 1 ≤ fuel + 8) :
    allocCluster fuel bytes .fat32 prev = some (.error .unexpectedEof) := by
  unfold allocCluster findFreeCluster Fat32.findFree
  rw [c5_findFreeLoop_eof bytes fuel 2 (fun c' h hc => hfull c' h hc) h1 (by omega)]

/-- A 16-byte FAT32 FAT slice (clusters 0-3) with no free entry. -/
def c5Fat : List Nat :=
  [0xF8, 0xFF, 0xFF, 0x0F,
   0xFF, 0xFF, 0xFF, 0x0F,
   0xFF, 0xFF, 0xFF, 0x0F,
   0xFF, 0xFF, 0xFF, 0x0F]

/-- C5 counterexample: on a full FAT32 volume `alloc_cluster` fails with
UnexpectedEof, not with the NoSpace error the claim states. -/
theorem c5_alloc_noSpace_counterexample :
    allocCluster 20 c5Fat .fat32 none = some (.error .unexpectedEof) ∧
    IoError.unexpectedEof ≠ IoError.noSpace := by
  refine ⟨by decide, by decide⟩

/-- C5 witness: the amended theorem applied to the concrete full FAT. -/
theorem c5_alloc_on_full_fat_eof_witness :
    allocCluster 20 c5Fat .fat32 (some 3) = some (.error .unexpectedEof) :=
  c5_alloc_on_full_fat_eof c5Fat 20 (some 3) (by decide) (by decide) (by decide)

/-- Little-endian bytes of a u16 value, as written by
`write_u16::<LittleEndian>` into a growing record buffer. -/
def le16 (v : Nat) : List Nat := [v % 256, v / 256 % 256]

/-- Little-endian bytes of a u32 value. -/
def le32 (v : Nat) : List Nat :=
  [v % 256, v / 256 % 256, v / 65536 % 256, v / 16777216 % 256]

/-- Consume one byte from a byte stream (`read_u8`). -/
def readU8L : List Nat → Except IoError (Nat × List Nat)
  | [] => .error .unexpectedEof
  | b :: rest => .ok (b, rest)

/-- Consume a little-endian u16 from a byte stream (`read_u16`). -/
def readU16L : List Nat → Except IoError (Nat × List Nat)
  | b0 :: b1 :: rest => .ok (b0 + 256 * b1, rest)
  | _ => .error .unexpectedEof

/-- Consume a little-endian u32 from a byte stream (`read_u32`). -/
def readU32L : List Nat → Except IoError (Nat × List Nat)
  | b0 :: b1 :: b2 :: b3 :: rest =>
    .ok (b0 + 256 * b1 + 65536 * b2 + 16777216 * b3, rest)
  | _ => .error .unexpectedEof

/-- Consume `n` little-endian u16 values (`read_u16_into`). -/
def readU16sL : Nat → List Nat → Except IoError (List Nat × List Nat)
  | 0, l => .ok ([], l)
  | n + 1, l =>
    match readU16L l with
    | .error e => .error e
    | .ok (v, l') =>
      match readU16sL n l' with
      | .error e => .error e
      | .ok (vs, l'') => .ok (v :: vs, l'')

/-- Split a byte list into little-endian u16 values (the `Cursor` +
`read_u16_into` decoding of the LFN name area of the first 11 bytes). -/
def parseU16Pairs : List Nat → List Nat
  | b0 :: b1 :: rest => (b0 + 256 * b1) :: parseU16Pairs rest
  | _ => []

/-- `struct DirFileEntryData` (dir_entry.rs): the regular 32-byte
directory record.  `name` is the 11-byte raw short name. -/
structure DirFileEntryData where
  name : List Nat
  attrs : Nat
  reserved0 : Nat
  createTime0 : Nat
  createTime1 : Nat
  createDate : Nat
  accessDate : Nat
  firstClusterHi : Nat
  modifyTime : Nat
  modifyDate : Nat
  firstClusterLo : Nat
  size : Nat
deriving DecidableEq, Repr

/-- `DirFileEntryData::default()`: all fields zero. -/
def emptyFileEntry : DirFileEntryData :=
  ⟨List.replicate 11 0, 0, 0, 0, 0, 0, 0, 0, 0, 0, 0, 0⟩

/-- `DirFileEntryData::serialize` (dir_entry.rs): the 32 record bytes in
field order. -/
def serializeFile (d : DirFileEntryData) : List Nat :=
  d.name ++ ([d.attrs, d.reserved0, d.createTime0] ++
    (le16 d.createTime1 ++ (le16 d.createDate ++ (le16 d.accessDate ++
     (le16 d.firstClusterHi ++ (le16 d.modifyTime ++ (le16 d.modifyDate ++
      (le16 d.firstClusterLo ++ le32 d.size))))))))

/-- `struct DirLfnEntryData` (dir_entry.rs): `name0`, `name1`, `name2`
hold the 5 + 6 + 2 UCS-2 code units as u16 values. -/
structure DirLfnEntryData where
  order : Nat
  name0 : List Nat
  attrs : Nat
  entryType : Nat
  checksum : Nat
  name1 : List Nat
  reserved0 : Nat
  name2 : List Nat
deriving DecidableEq, Repr

/-- `DirLfnEntryData::serialize` (dir_entry.rs). -/
def serializeLfn (d : DirLfnEntryData) : List Nat :=
  [d.order] ++ ((d.name0.map le16).flatten ++ ([d.attrs, d.entryType, d.checksum] ++
    ((d.name1.map le16).flatten ++ (le16 d.reserved0 ++ (d.name2.map le16).flatten))))

/-- `enum DirEntryData` (dir_entry.rs). -/
inductive DirEntryData where
  | file (d : DirFileEntryData)
  | lfn (d : DirLfnEntryData)
deriving DecidableEq, Repr

/-- `DirEntryData::serialize` (dir_entry.rs). -/
def DirEntryData.serialize : DirEntryData → List Nat
  | .file d => serializeFile d
  | .lfn d => serializeLfn d

/-- `DirEntryData::deserialize` (dir_entry.rs): read the 11 name bytes
(an UnexpectedEof there synthesizes an end-of-directory record), read
the attribute byte through `from_bits_truncate` (mask 0x3F), then parse
as LFN when the four LFN bits are all set, as a regular record
otherwise.  Returns the record and the unconsumed stream. -/
def DirEntryData.deserialize (stream : List Nat) : Except IoError (DirEntryData × List Nat) :=
  if stream.length < 11 then .ok (.file emptyFileEntry, [])
  else
    let name := stream.take 11
    let rest0 := stream.drop 11
    match readU8L rest0 with
    | .error e => .error e
    | .ok (attrsByte, rest1) =>
      let attrs := attrsByte &&& 0x3F
      if attrs &&& 0x0F = 0x0F then
        let order := name.headI
        let name0 := parseU16Pairs (name.drop 1)
        match readU8L rest1 with
        | .error e => .error e
        | .ok (entryType, rest2) =>
          match readU8L rest2 with
          | .error e => .error e
          | .ok (checksum, rest3) =>
            match readU16sL 6 rest3 with
            | .error e => .error e
            | .ok (name1, rest4) =>
              match readU16L rest4 with
              | .error e => .error e
              | .ok (reserved0, rest5) =>
                match readU16sL 2 rest5 with
                | .error e => .error e
                | .ok (name2, rest6) =>
                  .ok (.lfn ⟨order, name0, attrs, entryType, checksum, name1, reserved0, name2⟩,
                       rest6)
      else
        match readU8L rest1 with
        | .error e => .error e
        | .ok (reserved0, rest2) =>
          match readU8L rest2 with
          | .error e => .error e
          | .ok (createTime0, rest3) =>
            match readU16L rest3 with
            | .error e => .error e
            | .ok (createTime1, rest4) =>
              match readU16L rest4 with
              | .error e => .error e
              | .ok (createDate, rest5) =>
                match readU16L rest5 with
                | .error e => .error e
                | .ok (accessDate, rest6) =>
                  match readU16L rest6 with
                  | .error e => .error e
                  | .ok (firstClusterHi, rest7) =>
                    match readU16L rest7 with
                    | .error e => .error e
                    | .ok (modifyTime, rest8) =>
                      match readU16L rest8 with
                      | .error e => .error e
                      | .ok (modifyDate, rest9) =>
                        match readU16L rest9 with
                        | .error e => .error e
                        | .ok (firstClusterLo, rest10) =>
                          match readU32L rest10 with
                          | .error e => .error e
                          | .ok (sz, rest11) =>
                            .ok (.file ⟨name, attrs, reserved0, createTime0, createTime1,
                                        createDate, accessDate, firstClusterHi, modifyTime,
                                        modifyDate, firstClusterLo, sz⟩, rest11)

/-- Well-formedness of an in-memory regular record: the representation
invariant its Rust types give for free (u8/u16/u32 field ranges, an
11-byte name, and `attrs` confined to the bits `FileAttributes` defines,
which is what `from_bits_truncate` guarantees). -/
def DirFileEntryData.WF (d : DirFileEntryData) : Prop :=
  d.name.length = 11 ∧ (∀ b ∈ d.name, b < 256) ∧
  d.attrs &&& 0x3F = d.attrs ∧ d.reserved0 < 256 ∧ d.createTime0 < 256 ∧
  d.createTime1 < 65536 ∧ d.createDate < 65536 ∧ d.accessDate < 65536 ∧
  d.firstClusterHi < 65536 ∧ d.modifyTime < 65536 ∧ d.modifyDate < 65536 ∧
  d.firstClusterLo < 65536 ∧ d.size < 4294967296

instance (d : DirFileEntryData) : Decidable d.WF := by
  unfold DirFileEntryData.WF; infer_instance

/-- Well-formedness of an in-memory LFN record. -/
def DirLfnEntryData.WF (d : DirLfnEntryData) : Prop :=
  d.order < 256 ∧ d.name0.length = 5 ∧ (∀ v ∈ d.name0, v < 65536) ∧
  d.attrs &&& 0x3F = d.attrs ∧ d.entryType < 256 ∧ d.checksum < 256 ∧
  d.name1.length = 6 ∧ (∀ v ∈ d.name1, v < 65536) ∧ d.reserved0 < 65536 ∧
  d.name2.length = 2 ∧ (∀ v ∈ d.name2, v < 65536)

instance (d : DirLfnEntryData) : Decidable d.WF := by
  unfold DirLfnEntryData.WF; infer_instance

/-- Parsing the little-endian byte image of a list of u16 values
recovers the values. -/
theorem parseU16Pairs_flatten (l : List Nat) (h : ∀ v ∈ l, v < 65536) :
    parseU16Pairs ((l.map le16).flatten) = l := by
  induction l with
  | nil => rfl
  | cons v t ih =>
    have hv : v < 65536 := h v (List.mem_cons_self v t)
    have hhead : v % 256 + 256 * (v / 256 % 256) = v := by omega
    have ih2 := ih (fun x hx => h x (List.mem_cons_of_mem v hx))
    simp only [List.map_cons, List.flatten_cons, le16, List.cons_append, List.nil_append,
      parseU16Pairs, hhead, ih2]
    simp [ih2]

/-- `read_u16_into` over the little-endian byte image of `l` (followed
by anything) yields exactly `l` and leaves the tail. -/
theorem readU16sL_flatten (l rest : List Nat) (h : ∀ v ∈ l, v < 65536) :
    readU16sL l.length ((l.map le16).flatten ++ rest) = .ok (l, rest) := by
  induction l with
  | nil => rfl
  | cons v t ih =>
    have hv : v < 65536 := h v (List.mem_cons_self v t)
    have hhead : v % 256 + 256 * (v / 256 % 256) = v := by omega
    have ih2 := ih (fun x hx => h x (List.mem_cons_of_mem v hx))
    simp only [List.map_cons, List.flatten_cons, le16, List.cons_append, List.nil_append,
      List.length_cons, List.append_assoc, readU16sL, readU16L, hhead, ih2]

/-- The little-endian image of a list of u16 values is twice as long. -/
theorem length_flatten_le16 (l : List Nat) : ((l.map le16).flatten).length = 2 * l.length := by
  induction l with
  | nil => rfl
  | cons v t ih =>
    simp only [List.map_cons, List.flatten_cons, List.length_append, List.length_cons, ih, le16]
    simp
    omega

/-- C8: serialize-then-deserialize round-trip.  A regular record here is
one whose attribute byte does not carry the LFN discriminator (the four
low attribute bits all set marks the on-disk record as LFN, §3.3); an
LFN record carries it.  For every well-formed record of either shape,
serializing and deserializing the produced 32 bytes yields the identical
record with the same variant. -/
theorem c8_record_roundtrip :
    (∀ d : DirFileEntryData, d.WF → d.attrs &&& 0x0F ≠ 0x0F →
       DirEntryData.deserialize (serializeFile d) = .ok (.file d, [])) ∧
    (∀ d : DirLfnEntryData, d.WF → d.attrs &&& 0x0F = 0x0F →
       DirEntryData.deserialize (serializeLfn d) = .ok (.lfn d, [])) := by
  constructor
  · intro d hwf hnot
    obtain ⟨hnm, hnmb, ha, hr0, hc0, hc1, hcd, had, hhi, hmt, hmd, hlo, hsz⟩ := hwf
    have e1 : d.createTime1 % 256 + 256 * (d.createTime1 / 256 % 256) = d.createTime1 := by omega
    have e2 : d.createDate % 256 + 256 * (d.createDate / 256 % 256) = d.createDate := by omega
    have e3 : d.accessDate % 256 + 256 * (d.accessDate / 256 % 256) = d.accessDate := by omega
    have e4 : d.firstClusterHi % 256 + 256 * (d.firstClusterHi / 256 % 256) =
        d.firstClusterHi := by omega
    have e5 : d.modifyTime % 256 + 256 * (d.modifyTime / 256 % 256) = d.modifyTime := by omega
    have e6 : d.modifyDate % 256 + 256 * (d.modifyDate / 256 % 256) = d.modifyDate := by omega
    have e7 : d.firstClusterLo % 256 + 256 * (d.firstClusterLo / 256 % 256) =
        d.firstClusterLo := by omega
    have e8 : d.size % 256 + 256 * (d.size / 256 % 256) + 65536 * (d.size / 65536 % 256) +
        16777216 * (d.size / 16777216 % 256) = d.size := by omega
    simp only [serializeFile, DirEntryData.deserialize]
    rw [if_neg (by simp [le16, le32, hnm])]
    rw [List.take_left' hnm, List.drop_left' hnm]
    simp only [le16, le32, List.cons_append, List.nil_append]
    simp only [readU8L, readU16L, readU32L]
    rw [ha]
    rw [if_neg hnot]
    rw [e1, e2, e3, e4, e5, e6, e7, e8]
  · intro d hwf hlfn
    obtain ⟨hod, hn0, hn0b, ha, het, hck, hn1, hn1b, hrv, hn2, hn2b⟩ := hwf
    have hflat0 : ((d.name0.map le16).flatten).length = 10 := by rw [length_flatten_le16, hn0]
    have hflat1 : ((d.name1.map le16).flatten).length = 12 := by rw [length_flatten_le16, hn1]
    have hflat2 : ((d.name2.map le16).flatten).length = 4 := by rw [length_flatten_le16, hn2]
    have hname11 : (([d.order] ++ (d.name0.map le16).flatten)).length = 11 := by
      rw [List.length_append, hflat0]
      rfl
    have h6 : readU16sL 6
        ((d.name1.map le16).flatten ++ (le16 d.reserved0 ++ (d.name2.map le16).flatten)) =
        .ok (d.name1, le16 d.reserved0 ++ (d.name2.map le16).flatten) := by
      rw [← hn1]
      exact readU16sL_flatten d.name1 _ hn1b
    have hrveq : d.reserved0 % 256 + 256 * (d.reserved0 / 256 % 256) = d.reserved0 := by omega
    have hrv2 : readU16L (le16 d.reserved0 ++ (d.name2.map le16).flatten) =
        .ok (d.reserved0, (d.name2.map le16).flatten) := by
      simp only [le16, List.cons_append, List.nil_append, readU16L, hrveq]
    have h2p : readU16sL 2 ((d.name2.map le16).flatten) = .ok (d.name2, []) := by
      rw [← hn2]
      have h := readU16sL_flatten d.name2 [] hn2b
      simpa using h
    simp only [serializeLfn, DirEntryData.deserialize]
    rw [if_neg (by
      simp only [List.length_append, List.length_cons, List.length_nil, le16,
        hflat0, hflat1, hflat2]
      omega)]
    rw [← List.append_assoc]
    rw [List.take_left' hname11, List.drop_left' hname11]
    simp only [List.singleton_append, List.headI, List.drop_succ_cons, List.drop_zero]
    rw [parseU16Pairs_flatten d.name0 hn0b]
    simp only [List.cons_append, List.nil_append, readU8L]
    rw [ha]
    rw [if_pos hlfn]
    simp only [h6, hrv2, h2p]

/-- A concrete regular record (a FOOBAR.TXT archive entry). -/
def c8SampleFile : DirFileEntryData :=
  ⟨[70, 79, 79, 66, 65, 82, 32, 32, 84, 88, 84], 0x20, 0, 0,
   0x1234, 0x4A21, 0x4A21, 0x0001, 0x5678, 0x4A22, 0x0002, 5000⟩

/-- A concrete LFN record. -/
def c8SampleLfn : DirLfnEntryData :=
  ⟨0x41, [0x66, 0x6F, 0x6F, 0x62, 0x61], 0x0F, 0, 0xA7,
   [0x72, 0x2E, 0x74, 0x78, 0x74, 0], 0, [0xFFFF, 0xFFFF]⟩

/-- C8 witness: the round-trip theorem applied at concrete records. -/
theorem c8_record_roundtrip_witness :
    DirEntryData.deserialize (serializeFile c8SampleFile) = .ok (.file c8SampleFile, []) ∧
    DirEntryData.deserialize (serializeLfn c8SampleLfn) = .ok (.lfn c8SampleLfn, []) :=
  ⟨c8_record_roundtrip.1 c8SampleFile (by decide) (by decide),
   c8_record_roundtrip.2 c8SampleLfn (by decide) (by decide)⟩

/-- `DirFileEntryData::is_end` (dir_entry.rs): first name byte 0. -/
def DirFileEntryData.isEnd (d : DirFileEntryData) : Bool := d.name.headI == 0

/-- `DirFileEntryData::is_free` (dir_entry.rs): first name byte 0xE5. -/
def DirFileEntryData.isFree (d : DirFileEntryData) : Bool := d.name.headI == 0xE5

/-- `DirFileEntryData::is_volume` (dir_entry.rs): VOLUME_ID bit set. -/
def DirFileEntryData.isVolume (d : DirFileEntryData) : Bool := d.attrs &&& 0x08 == 0x08

/-- `DirFileEntryData::is_dir` (dir_entry.rs): DIRECTORY bit set. -/
def DirFileEntryData.isDir (d : DirFileEntryData) : Bool := d.attrs &&& 0x10 == 0x10

/-- `DirFileEntryData::set_free` (dir_entry.rs). -/
def DirFileEntryData.setFree (d : DirFileEntryData) : DirFileEntryData :=
  { d with name := d.name.set 0 0xE5 }

/-- `DirFileEntryData::first_cluster` (dir_entry.rs): combine the hi
(FAT32 only) and lo halves; a zero field decodes to None. -/
def DirFileEntryData.firstCluster (d : DirFileEntryData) (ft : FatType) : Option Nat :=
  let hi := if ft = .fat32 then d.firstClusterHi else 0
  let n := (hi <<< 16) ||| d.firstClusterLo
  if n = 0 then none else some n

/-- `DirFileEntryData::set_first_cluster` (dir_entry.rs): store
`cluster.unwrap_or(0)`; the hi half is written only on FAT32. -/
def DirFileEntryData.setFirstClusterD (d : DirFileEntryData) (cluster : Option Nat)
    (ft : FatType) : DirFileEntryData :=
  let n := cluster.getD 0
  let d1 := if ft = .fat32 then { d with firstClusterHi := n >>> 16 } else d
  { d1 with firstClusterLo := n &&& 0xFFFF }

/-- `DirFileEntryData::size` (dir_entry.rs): known only for files
(directories report None). -/
def DirFileEntryData.sizeOpt (d : DirFileEntryData) : Option Nat :=
  if d.isDir then none else some d.size

/-- `copy_short_name_part` (dir.rs): characters forbidden in short
names and non-ASCII characters become `0x3F`, everything is
ASCII-uppercased, and copying stops when the destination is full.
Characters are their Unicode scalar values. -/
def copyShortNamePart (dstLen : Nat) (src : List Nat) : List Nat :=
  (src.take dstLen).map (fun c =>
    let c2 :=
      if c = 46 ∨ c = 32 ∨ c = 43 ∨ c = 44 ∨ c = 59 ∨ c = 61 ∨ c = 91 ∨ c = 93 then 63
      else if c < 0x80 then c
      else 63
    if 97 ≤ c2 ∧ c2 ≤ 122 then c2 - 32 else c2)

/-- `str::rfind` of a character: index of its last occurrence. -/
def rfindIdx (l : List Nat) (t : Nat) : Option Nat :=
  match l.reverse.findIdx? (fun c => c == t) with
  | some i => some (l.length - 1 - i)
  | none => none

/-- `generate_short_name` (dir.rs): split on the last dot, copy base and
extension into an 0x20-padded 11-byte buffer.  Note there is no special
case for the names "." and "..". -/
def generateShortName (name : List Nat) : List Nat :=
  match rfindIdx name 46 with
  | some index =>
    let base := copyShortNamePart 8 (name.take index)
    let ext := copyShortNamePart 3 (name.drop (index + 1))
    (base ++ List.replicate (8 - base.length) 32) ++
      (ext ++ List.replicate (3 - ext.length) 32)
  | none =>
    let base := copyShortNamePart 8 name
    (base ++ List.replicate (8 - base.length) 32) ++ List.replicate 3 32

/-- Modelled from the spec: `strip_non_ascii` lives in fs.rs, which is
not under src/; §4.4 says characters ≥ 0x80 are replaced with `?`. -/
def stripNonAscii (l : List Nat) : List Nat :=
  l.map (fun b => if b < 0x80 then b else 63)

/-- `ShortName::new` + `ShortName::to_str` (dir_entry.rs): measure the
base by the first 0x20 in bytes 0-7 (8 when none) and the extension by
the first 0x20 in bytes 8-10 (3 when none); join with a dot when the
extension is nonempty; strip non-ASCII. -/
def decodeShortName (raw : List Nat) : List Nat :=
  let nameLen := (raw.take 8).findIdx (fun b => b == 32)
  let extLen := (raw.drop 8).findIdx (fun b => b == 32)
  let assembled :=
    if 0 < extLen then raw.take nameLen ++ [46] ++ (raw.drop 8).take extLen
    else raw.take nameLen
  stripNonAscii assembled

/-- The regular record `create_entry` (dir.rs) writes: a fresh
`DirFileEntryData::new(short_name, attrs)` with the first cluster
stored; the timestamp resets are no-ops. -/
def mkRawEntry (shortName : List Nat) (attrs : Nat) (firstCluster : Option Nat)
    (ft : FatType) : DirFileEntryData :=
  DirFileEntryData.setFirstClusterD ⟨shortName, attrs, 0, 0, 0, 0, 0, 0, 0, 0, 0, 0⟩
    firstCluster ft

/-- The `"."` entry `create_dir` (dir.rs) writes into a new directory:
name from `generate_short_name(".")`, DIRECTORY attribute, first
cluster of the new directory itself. -/
def dotEntryData (selfCluster : Nat) (ft : FatType) : DirFileEntryData :=
  mkRawEntry (generateShortName [46]) 0x10 (some selfCluster) ft

/-- The `".."` entry `create_dir` (dir.rs) writes: name from
`generate_short_name("..")`, DIRECTORY attribute, the parent stream's
first cluster (None when the parent is the FAT12/16 root). -/
def dotdotEntryData (parentFirstCluster : Option Nat) (ft : FatType) : DirFileEntryData :=
  mkRawEntry (generateShortName [46, 46]) 0x10 parentFirstCluster ft

/-- Byte content of a freshly created directory's cluster after
`create_dir` (dir.rs): on a fresh zero-filled cluster,
`find_free_entries(1)` stops at the first end-of-directory record, so
the `"."` record lands in slot 0 and the `".."` record in slot 1; the
rest of the cluster stays zero. -/
def newDirContent (selfCluster : Nat) (parentFirstCluster : Option Nat) (ft : FatType)
    (clusterSize : Nat) : List Nat :=
  serializeFile (dotEntryData selfCluster ft) ++
    serializeFile (dotdotEntryData parentFirstCluster ft) ++
    List.replicate (clusterSize - 64) 0

/-- `DirIter::read_dir_entry` (dir.rs): deserialize records in turn;
an end record terminates with no entry, free and volume-ID records are
skipped, LFN records never yield an entry of their own; the first live
regular record is returned together with the rest of the stream. -/
def readDirEntryFuel : Nat → List Nat → Option (Except IoError (Option (DirFileEntryData × List Nat)))
  | 0, _ => none
  | fuel + 1, stream =>
    match DirEntryData.deserialize stream with
    | .error e => some (.error e)
    | .ok (.file d, rest) =>
      if d.isEnd then some (.ok none)
      else if d.isFree || d.isVolume then readDirEntryFuel fuel rest
      else some (.ok (some (d, rest)))
    | .ok (.lfn _, rest) => readDirEntryFuel fuel rest

/-- `Dir::iter` collected to a list (dir.rs): the sequence of logical
entries up to the end of the directory. -/
def dirEntriesFuel : Nat → List Nat → Option (Except IoError (List DirFileEntryData))
  | 0, _ => none
  | fuel + 1, stream =>
    match readDirEntryFuel (fuel + 1) stream with
    | none => none
    | some (.error e) => some (.error e)
    | some (.ok none) => some (.ok [])
    | some (.ok (some (d, rest))) =>
      match dirEntriesFuel fuel rest with
      | none => none
      | some (.error e) => some (.error e)
      | some (.ok l) => some (.ok (d :: l))

/-- `Dir::is_empty` (dir.rs): iterate; any entry whose decoded name is
neither "." nor ".." makes the directory non-empty. -/
def isEmptyFuel : Nat → List Nat → Option (Except IoError Bool)
  | 0, _ => none
  | fuel + 1, stream =>
    match readDirEntryFuel (fuel + 1) stream with
    | none => none
    | some (.error e) => some (.error e)
    | some (.ok none) => some (.ok true)
    | some (.ok (some (d, rest))) =>
      let nm := decodeShortName d.name
      if nm ≠ [46] ∧ nm ≠ [46, 46] then some (.ok false)
      else isEmptyFuel fuel rest

/-- The directory-target check in `Dir::remove` (dir.rs lines 197-201):
a non-empty directory is rejected with a NotFound error ("removing
non-empty directory is denied"). -/
def removeDirCheck (isDirEntry : Bool) (empty : Bool) : Except IoError Unit :=
  if isDirEntry && !empty then .error .notFound else .ok ()

/-- Cluster content of the directory created by `create_dir("d")` on a
FAT16 volume (new cluster 5, parent is the root, cluster size 128). -/
def c3DirBytes : List Nat := newDirContent 5 none .fat16 128

set_option maxRecDepth 10000 in
/-- C3: the claim fails on the code.  Iterating the directory that
`create_dir` just built yields exactly two entries whose first clusters
are the new directory's cluster (5) and the parent's (None for the
FAT12/16 root) — but their decoded names are "" and "?", not "." and
"..": `generate_short_name` has no special case for the dot names, so
"." collapses to eleven spaces (empty base and empty extension around
the last dot) and ".." to "?" (the base "." maps to `?`). -/
theorem c3_dot_entries_have_wrong_names :
    dirEntriesFuel 8 c3DirBytes =
      some (.ok [dotEntryData 5 .fat16, dotdotEntryData none .fat16]) ∧
    decodeShortName (dotEntryData 5 .fat16).name = [] ∧
    decodeShortName (dotdotEntryData none .fat16).name = [63] ∧
    (dotEntryData 5 .fat16).firstCluster .fat16 = some 5 ∧
    (dotdotEntryData none .fat16).firstCluster .fat16 = none ∧
    ([] : List Nat) ≠ [46] ∧ ([63] : List Nat) ≠ [46, 46] := by
  refine ⟨by decide, by decide, by decide, by decide, by decide, by decide, by decide⟩

/-- The record `create_file("d/f")` adds to the new directory. -/
def c4FileRecord : DirFileEntryData := mkRawEntry (generateShortName [102]) 0 none .fat16

/-- Directory content of "d" while "d/f" still exists. -/
def c4DirBytesLive : List Nat :=
  serializeFile (dotEntryData 5 .fat16) ++
    serializeFile (dotdotEntryData none .fat16) ++
    serializeFile c4FileRecord ++ List.replicate 32 0

/-- Directory content of "d" after `remove("d/f")` marked the record
free (first name byte 0xE5). -/
def c4DirBytesRemoved : List Nat :=
  serializeFile (dotEntryData 5 .fat16) ++
    serializeFile (dotdotEntryData none .fat16) ++
    serializeFile c4FileRecord.setFree ++ List.replicate 32 0

set_option maxRecDepth 10000 in
/-- C4: the second half of the claim fails on the code.  While "d/f"
exists, `remove("d")` errors as the claim says (the directory is
non-empty).  But after `remove("d/f")`, `is_empty` still returns false —
the "." and ".." entries created by `create_dir` decode to "" and "?"
(see the missing dot special-case in `generate_short_name`), so they do
not match the "." / ".." exemption — and `remove("d")` again fails with
the NotFound error instead of succeeding. -/
theorem c4_remove_emptied_dir_still_fails :
    isEmptyFuel 8 c4DirBytesLive = some (.ok false) ∧
    isEmptyFuel 8 c4DirBytesRemoved = some (.ok false) ∧
    removeDirCheck true false = .error .notFound := by
  refine ⟨by decide, by decide, by decide⟩

/-- `struct DirEntryEditor` (dir_entry.rs): a by-value copy of the
record, its absolute on-disk position, and a dirty flag. -/
structure DirEntryEditor where
  data : DirFileEntryData
  pos : Nat
  dirty : Bool
deriving DecidableEq, Repr

/-- `DirEntryEditor::set_first_cluster` (dir_entry.rs): write-through
with change detection. -/
def DirEntryEditor.setFirstCluster (e : DirEntryEditor) (c : Option Nat) (ft : FatType) :
    DirEntryEditor :=
  if c ≠ e.data.firstCluster ft then
    { e with data := e.data.setFirstClusterD c ft, dirty := true }
  else e

/-- `DirEntryEditor::set_size` (dir_entry.rs): only a file with a known
size that actually changes is updated. -/
def DirEntryEditor.setSize (e : DirEntryEditor) (size : Nat) : DirEntryEditor :=
  match e.data.sizeOpt with
  | some n => if size ≠ n then { e with data := { e.data with size := size }, dirty := true } else e
  | none => e

/-- `DirEntryEditor::reset_modified` (dir_entry.rs): the timestamp reset
is a no-op but the editor is marked dirty. -/
def DirEntryEditor.resetModified (e : DirEntryEditor) : DirEntryEditor :=
  { e with dirty := true }

/-- `struct File` (file.rs) without the fs back-reference (which is
passed explicitly to each operation): first cluster (None iff the file
is empty), the cluster covering the current offset (the previous one on
an exact boundary, None at offset 0), the byte offset, and the optional
directory-entry editor. -/
structure FileHandle where
  firstCluster : Option Nat
  currentCluster : Option Nat
  offset : Nat
  entry : Option DirEntryEditor
deriving DecidableEq, Repr

/-- The size the seek path reads:
`self.entry.iter().next().map_or(None, |e| e.inner().size())`. -/
def FileHandle.sizeOpt (f : FileHandle) : Option Nat :=
  match f.entry with
  | some e => e.data.sizeOpt
  | none => none

/-- Modelled from the spec: the root-directory location of §3.1
(`root_dir_spec` lives in fs.rs, which is not under src/): a flat
(offset, length) region for FAT12/16, a starting cluster for FAT32. -/
inductive RootDirSpec where
  | region (offset len : Nat)
  | cluster (n : Nat)
deriving DecidableEq, Repr

/-- Modelled from the spec: the filesystem facade (fs.rs, not under
src/).  Mount-time geometry per §3.1 (`cluster_size`, the byte offset of
cluster 2, the root-directory spec), the primary FAT slice contents, and
the whole-volume byte image the files read and write through. -/
structure FileSystemModel where
  fatType : FatType
  clusterSize : Nat
  firstDataOffset : Nat
  rootSpec : RootDirSpec
  fat : List Nat
  disk : List Nat
deriving DecidableEq, Repr

/-- Modelled from the spec (§3.1 invariant): byte offset of cluster `n`,
`first_data_sector_bytes + (n − 2) × cluster_size`. -/
def offsetFromCluster (fs : FileSystemModel) (n : Nat) : Nat :=
  fs.firstDataOffset + (n - 2) * fs.clusterSize

/-- `SeekFrom` (basic_io): Start carries a u64, Current and End an
i64. -/
inductive SeekFromM where
  | start (x : Nat)
  | current (x : Int)
  | fromEnd (x : Int)
deriving DecidableEq, Repr

/-- Outcome of `File::seek`: a panic (the `expect` in the End arm), an
error, or the updated handle with the returned position. -/
inductive SeekResult where
  | panicked
  | errored (e : IoError)
  | ok (f : FileHandle) (pos : Nat)
deriving DecidableEq, Repr

/-- The `for i in 0..cluster_count` walk in `File::seek` (file.rs):
step the cluster iterator; when the chain ends early, report the index
at which it broke so the caller clamps the offset. -/
def seekWalkLoop : Nat → ClusterIter → Nat → Nat → Except IoError (Nat × Option Nat)
  | 0, _, cluster, _ => .ok (cluster, none)
  | steps + 1, it, cluster, i =>
    match ClusterIter.nextStep it with
    | (it', some (.ok n)) => seekWalkLoop steps it' n (i + 1)
    | (_, some (.error e)) => .error e
    | (_, none) => .ok (cluster, some i)

/-- The tail of `File::seek` after the raw position is computed
(file.rs): reject negative, clamp to a known size, no-op when equal to
the current offset, then locate the new current cluster by the
previous-cluster-at-boundary index arithmetic, walking the chain from
the first cluster when the cluster index changes. -/
def fileSeekCont (fs : FileSystemModel) (f : FileHandle) (newPos0 : Int) : SeekResult :=
  if newPos0 < 0 then .errored .invalidInput
  else
    let newPos1 : Int :=
      match f.entry with
      | some e =>
        match e.data.sizeOpt with
        | some s => if newPos0 > (s : Int) then (s : Int) else newPos0
        | none => newPos0
      | none => newPos0
    if newPos1 = (f.offset : Int) then .ok f f.offset
    else
      let cs : Int := (fs.clusterSize : Int)
      let clusterCount : Int := (newPos1 + cs - 1) / cs - 1
      let oldClusterCount : Int := ((f.offset : Int) + cs - 1) / cs - 1
      if newPos1 = 0 then .ok { f with offset := 0, currentCluster := none } 0
      else if clusterCount = oldClusterCount then
        .ok { f with offset := newPos1.toNat % 4294967296 } (newPos1.toNat % 4294967296)
      else
        match f.firstCluster with
        | some n =>
          match seekWalkLoop clusterCount.toNat ⟨fs.fat, fs.fatType, some n, false⟩ n 0 with
          | .error e => .errored e
          | .ok (cluster, breakIdx) =>
            let newPos2 : Int :=
              match breakIdx with
              | some i => ((i : Int) + 1) * cs
              | none => newPos1
            .ok { f with offset := newPos2.toNat % 4294967296, currentCluster := some cluster }
              (newPos2.toNat % 4294967296)
        | none => .ok { f with offset := 0, currentCluster := none } 0

/-- `File::seek` (file.rs).  In the `SeekFrom::End` arm the size is
taken from the entry editor and unwrapped with
`expect("cannot seek from end if size is unknown")` — a panic, not an
error, when the size is unknown. -/
def fileSeek (fs : FileSystemModel) (f : FileHandle) (pos : SeekFromM) : SeekResult :=
  match pos with
  | .current x => fileSeekCont fs f ((f.offset : Int) + x)
  | .start x => fileSeekCont fs f (x : Int)
  | .fromEnd x =>
    match f.sizeOpt with
    | none => .panicked
    | some s => fileSeekCont fs f ((s : Int) + x)

/-- C6 amended: for every file handle whose size is unknown (no entry
editor, or a directory entry), `seek(SeekFrom::End(x))` terminates
abnormally — the `expect` panics with "cannot seek from end if size is
unknown" — for every offset x; it does not return an InvalidInput
error. -/
theorem c6_seek_end_unknown_size_panics (fs : FileSystemModel) (f : FileHandle) (x : Int)
    (h : f.sizeOpt = none) : fileSeek fs f (.fromEnd x) = .panicked := by
  simp only [fileSeek, h]

/-- A file handle with no directory-entry editor (size unknown). -/
def c6File : FileHandle := ⟨some 3, none, 0, none⟩

/-- A small FAT32 filesystem model around `c1Fat`. -/
def c6Fs : FileSystemModel := ⟨.fat32, 128, 1024, .cluster 2, c1Fat, List.replicate 256 0⟩

/-- C6 counterexample: on a handle with unknown size, seek-from-end
panics; it does not return the InvalidInput error the claim states. -/
theorem c6_seek_end_counterexample :
    fileSeek c6Fs c6File (.fromEnd 0) = .panicked ∧
    SeekResult.panicked ≠ .errored .invalidInput := by
  refine ⟨by decide, by decide⟩

/-- C6 witness: the amended theorem at a concrete handle and offset. -/
theorem c6_seek_end_unknown_size_panics_witness :
    fileSeek c6Fs c6File (.fromEnd 7) = .panicked :=
  c6_seek_end_unknown_size_panics c6Fs c6File 7 (by decide)

/-- `File::bytes_left_in_file` (file.rs): `(s - offset) as usize` on
u32 values; the subtraction is modelled with the u32 wrap (the claims
only quantify over `offset ≤ s`, where it equals `s - offset`). -/
def bytesLeftInFileM (f : FileHandle) : Option Nat :=
  match f.entry with
  | some e => (e.data.sizeOpt).map (fun s => (s + 4294967296 - f.offset) % 4294967296)
  | none => none

/-- `self.fs.cluster_iter(n).next()` as `File::read`/`File::write` call
it on a cluster boundary. -/
def clusterIterNext (fs : FileSystemModel) (n : Nat) : Except IoError (Option Nat) :=
  match (ClusterIter.nextStep ⟨fs.fat, fs.fatType, some n, false⟩).2 with
  | some (.error e) => .error e
  | some (.ok m) => .ok (some m)
  | none => .ok none

/-- `File::read` (file.rs): resolve the cluster covering the offset
(advancing through the FAT on an exact boundary), cap the transfer by
the caller's buffer, the bytes left in the cluster and the bytes left
in the file, then read from the disk image (which returns at most the
bytes it still has).  The model returns the transfer count and the
updated handle. -/
def fileRead (fs : FileSystemModel) (f : FileHandle) (bufLen : Nat) :
    Except IoError (Nat × FileHandle) :=
  match (if f.offset % fs.clusterSize = 0 then
           match f.currentCluster with
           | none => Except.ok f.firstCluster
           | some n => clusterIterNext fs n
         else Except.ok f.currentCluster) with
  | .error e => .error e
  | .ok none => .ok (0, f)
  | .ok (some current) =>
    if min (min bufLen (fs.clusterSize - f.offset % fs.clusterSize))
        ((bytesLeftInFileM f).getD (fs.clusterSize - f.offset % fs.clusterSize)) = 0 then
      .ok (0, f)
    else
      if min (min (min bufLen (fs.clusterSize - f.offset % fs.clusterSize))
              ((bytesLeftInFileM f).getD (fs.clusterSize - f.offset % fs.clusterSize)))
          (fs.disk.length - (offsetFromCluster fs current + f.offset % fs.clusterSize)) = 0 then
        .ok (0, f)
      else
        .ok (min (min (min bufLen (fs.clusterSize - f.offset % fs.clusterSize))
                  ((bytesLeftInFileM f).getD (fs.clusterSize - f.offset % fs.clusterSize)))
              (fs.disk.length - (offsetFromCluster fs current + f.offset % fs.clusterSize)),
             { f with
               offset := f.offset +
                 min (min (min bufLen (fs.clusterSize - f.offset % fs.clusterSize))
                      ((bytesLeftInFileM f).getD (fs.clusterSize - f.offset % fs.clusterSize)))
                  (fs.disk.length - (offsetFromCluster fs current + f.offset % fs.clusterSize)),
               currentCluster := some current })

/-- Overwrite `bytes` into `disk` at byte offset `off`, clamped to the
disk's end (the Cursor write semantics over a fixed byte image). -/
def spliceBytes (disk : List Nat) (off : Nat) (bytes : List Nat) : List Nat :=
  disk.take off ++ bytes.take (disk.length - off) ++
    disk.drop (min disk.length (off + bytes.length))

/-- The zero-fill of a newly allocated directory cluster
(`cluster_size / 32` zeroed 32-byte records, file.rs). -/
def zeroFill (disk : List Nat) (off len : Nat) : List Nat :=
  spliceBytes disk off (List.replicate len 0)

/-- `File::update_size` (file.rs): mark the editor dirty
(`reset_modified`) and grow the stored size when the offset moved past
it. -/
def FileHandle.updateSize (f : FileHandle) : FileHandle :=
  match f.entry with
  | some e =>
    { f with
      entry := some (match e.resetModified.data.sizeOpt with
                     | some s =>
                       if f.offset > s then e.resetModified.setSize f.offset
                       else e.resetModified
                     | none => e.resetModified) }
  | none => f

/-- `File::set_first_cluster` (file.rs): record the new first cluster
in the handle and write it through the entry editor. -/
def FileHandle.setFirstClusterF (f : FileHandle) (cluster : Nat) (ft : FatType) : FileHandle :=
  match f.entry with
  | some e =>
    { f with firstCluster := some cluster,
             entry := some (e.setFirstCluster (some cluster) ft) }
  | none => { f with firstCluster := some cluster }

/-- Outcome of `File::write`: panic ("Offset inside cluster but no
cluster allocated"), error, or the transfer count with the updated
handle and filesystem (FAT and disk image). -/
inductive WriteOutcome where
  | panicked
  | errored (e : IoError)
  | completed (written : Nat) (f : FileHandle) (fs : FileSystemModel)
deriving DecidableEq, Repr

/-- The tail of `File::write` once the target cluster is known
(file.rs): write at most `writeSize` bytes at the in-cluster offset
(the disk image accepts at most what it has room for), then update
offset, current cluster and the entry size. -/
def fileWriteAt (fs : FileSystemModel) (f : FileHandle) (buf : List Nat) (current : Nat)
    (offsetInCluster writeSize : Nat) : WriteOutcome :=
  if min writeSize (fs.disk.length - (offsetFromCluster fs current + offsetInCluster)) = 0 then
    .completed 0 f fs
  else
    .completed (min writeSize (fs.disk.length - (offsetFromCluster fs current + offsetInCluster)))
      (FileHandle.updateSize
        { f with
          offset := f.offset +
            min writeSize (fs.disk.length - (offsetFromCluster fs current + offsetInCluster)),
          currentCluster := some current })
      { fs with
        disk := spliceBytes fs.disk (offsetFromCluster fs current + offsetInCluster)
                  (buf.take (min writeSize
                    (fs.disk.length - (offsetFromCluster fs current + offsetInCluster)))) }

/-- `File::write` (file.rs): cap the transfer at the bytes left in the
current cluster; on an exact cluster boundary advance through the FAT,
allocating and linking a new cluster at the end of the chain (zeroing
it first for directory streams, i.e. when the size is unknown); then
write through `fileWriteAt`. -/
def fileWrite (fuel : Nat) (fs : FileSystemModel) (f : FileHandle) (buf : List Nat) :
    Option WriteOutcome :=
  if min buf.length (fs.clusterSize - f.offset % fs.clusterSize) = 0 then
    some (.completed 0 f fs)
  else if f.offset % fs.clusterSize = 0 then
    match (match f.currentCluster with
           | none => Except.ok f.firstCluster
           | some n => clusterIterNext fs n) with
    | .error e => some (.errored e)
    | .ok (some n) =>
      some (fileWriteAt fs f buf n (f.offset % fs.clusterSize)
        (min buf.length (fs.clusterSize - f.offset % fs.clusterSize)))
    | .ok none =>
      match allocCluster fuel fs.fat fs.fatType f.currentCluster with
      | none => none
      | some (.error e) => some (.errored e)
      | some (.ok (newCluster, fat')) =>
        some (fileWriteAt
          (if (match (if f.firstCluster.isNone
                      then f.setFirstClusterF newCluster fs.fatType else f).entry with
               | some e => e.data.sizeOpt.isNone
               | none => true)
           then { fs with
                  fat := fat',
                  disk := zeroFill fs.disk (offsetFromCluster fs newCluster)
                            (fs.clusterSize / 32 * 32) }
           else { fs with fat := fat' })
          (if f.firstCluster.isNone then f.setFirstClusterF newCluster fs.fatType else f)
          buf newCluster (f.offset % fs.clusterSize)
          (min buf.length (fs.clusterSize - f.offset % fs.clusterSize)))
  else
    match f.currentCluster with
    | some n =>
      some (fileWriteAt fs f buf n (f.offset % fs.clusterSize)
        (min buf.length (fs.clusterSize - f.offset % fs.clusterSize)))
    | none => some .panicked

/-- A completed `fileWriteAt` transfers at most `writeSize` bytes. -/
theorem fileWriteAt_le {fs : FileSystemModel} {f : FileHandle} {buf : List Nat}
    {current offsetInCluster writeSize n : Nat} {f' : FileHandle} {fs' : FileSystemModel}
    (h : fileWriteAt fs f buf current offsetInCluster writeSize = .completed n f' fs') :
    n ≤ writeSize := by
  unfold fileWriteAt at h
  split at h
  · cases h
    omega
  · cases h
    omega

/-- C9: a single read or write call transfers at most
`min(buffer length, cluster_size − offset % cluster_size)` bytes — it
never spans a cluster boundary — and a read on a file with known size
additionally transfers at most `size − offset` bytes. -/
theorem c9_single_call_transfer_bounds :
    (∀ (fs : FileSystemModel) (f : FileHandle) (bufLen n : Nat) (f' : FileHandle),
       fileRead fs f bufLen = .ok (n, f') →
       n ≤ min bufLen (fs.clusterSize - f.offset % fs.clusterSize)) ∧
    (∀ (fs : FileSystemModel) (f : FileHandle) (bufLen n : Nat) (f' : FileHandle) (s : Nat),
       fileRead fs f bufLen = .ok (n, f') → f.sizeOpt = some s → s < 4294967296 →
       f.offset ≤ s → n ≤ s - f.offset) ∧
    (∀ (fuel : Nat) (fs : FileSystemModel) (f : FileHandle) (buf : List Nat)
       (n : Nat) (f' : FileHandle) (fs' : FileSystemModel),
       fileWrite fuel fs f buf = some (.completed n f' fs') →
       n ≤ min buf.length (fs.clusterSize - f.offset % fs.clusterSize)) := by
  refine ⟨?_, ?_, ?_⟩
  · intro fs f bufLen n f' h
    unfold fileRead at h
    split at h
    · simp at h
    · simp only [Except.ok.injEq, Prod.mk.injEq] at h
      omega
    · split at h
      · simp only [Except.ok.injEq, Prod.mk.injEq] at h
        omega
      · split at h
        · simp only [Except.ok.injEq, Prod.mk.injEq] at h
          omega
        · simp only [Except.ok.injEq, Prod.mk.injEq] at h
          omega
  · intro fs f bufLen n f' s h hs hlt hle
    have hblf : bytesLeftInFileM f = some ((s + 4294967296 - f.offset) % 4294967296) := by
      unfold bytesLeftInFileM
      unfold FileHandle.sizeOpt at hs
      cases he : f.entry with
      | none => rw [he] at hs; cases hs
      | some e =>
        rw [he] at hs
        simp only [] at hs
        simp [hs]
    unfold fileRead at h
    rw [hblf] at h
    split at h
    · simp at h
    · simp only [Except.ok.injEq, Prod.mk.injEq] at h
      omega
    · split at h
      · simp only [Except.ok.injEq, Prod.mk.injEq] at h
        omega
      · split at h
        · simp only [Except.ok.injEq, Prod.mk.injEq] at h
          omega
        · simp only [Except.ok.injEq, Prod.mk.injEq, Option.getD_some] at h
          omega
  · intro fuel fs f buf n f' fs' h
    unfold fileWrite at h
    split at h
    · simp only [Option.some.injEq, WriteOutcome.completed.injEq] at h
      omega
    · split at h
      · split at h
        · simp at h
        · rw [Option.some_inj] at h
          exact fileWriteAt_le h
        · split at h
          · simp at h
          · simp at h
          · rw [Option.some_inj] at h
            exact fileWriteAt_le h
      · split at h
        · rw [Option.some_inj] at h
          exact fileWriteAt_le h
        · simp at h

/-- A 4-byte-cluster FAT32 model whose data area starts at byte 0. -/
def c9Fs : FileSystemModel := ⟨.fat32, 4, 0, .cluster 2, c1Fat, [1, 2, 3, 4, 5, 6, 7, 8]⟩

/-- Editor over a regular file record of size 2. -/
def c9Editor : DirEntryEditor :=
  ⟨⟨[70, 32, 32, 32, 32, 32, 32, 32, 32, 32, 32], 0, 0, 0, 0, 0, 0, 0, 0, 0, 0, 2⟩, 64, false⟩

/-- A file handle at offset 0 over cluster 2, size 2. -/
def c9File : FileHandle := ⟨some 2, none, 0, some c9Editor⟩

/-- `c9File` after reading 2 bytes. -/
def c9FileAfter : FileHandle := ⟨some 2, some 2, 2, some c9Editor⟩

/-- A handle with no entry editor, for the write bound. -/
def c9FileW : FileHandle := ⟨some 2, none, 0, none⟩

/-- `c9FileW` after writing 3 bytes. -/
def c9FileWAfter : FileHandle := ⟨some 2, some 2, 3, none⟩

/-- `c9Fs` after the 3-byte write at cluster 2. -/
def c9FsAfter : FileSystemModel :=
  ⟨.fat32, 4, 0, .cluster 2, c1Fat, [9, 9, 9, 4, 5, 6, 7, 8]⟩

/-- C9 witness: the three bounds applied at concrete calls (a 2-byte
read capped by the file size, and a 3-byte write capped by the buffer
within one cluster). -/
theorem c9_single_call_transfer_bounds_witness :
    2 ≤ min 3 (c9Fs.clusterSize - c9File.offset % c9Fs.clusterSize) ∧
    2 ≤ 2 - c9File.offset ∧
    3 ≤ min ([9, 9, 9] : List Nat).length (c9Fs.clusterSize - c9FileW.offset % c9Fs.clusterSize) :=
  ⟨c9_single_call_transfer_bounds.1 c9Fs c9File 3 2 c9FileAfter (by decide),
   c9_single_call_transfer_bounds.2.1 c9Fs c9File 3 2 c9FileAfter 2
     (by decide) (by decide) (by decide) (by decide),
   c9_single_call_transfer_bounds.2.2 5 c9Fs c9FileW [9, 9, 9] 3 c9FileWAfter c9FsAfter
     (by decide)⟩

/-- `enum DirRawStream` (dir.rs): a directory stream is either a
cluster-chain file or the flat FAT12/16 root-directory disk slice. -/
inductive DirRawStreamM where
  | file (f : FileHandle)
  | root (sliceOffset sliceLen : Nat)
deriving DecidableEq, Repr

/-- `struct Dir` (dir.rs) without the fs back-reference. -/
structure DirM where
  stream : DirRawStreamM
deriving DecidableEq, Repr

/-- Modelled from the spec: `FileSystem::root_dir` (fs.rs, not under
src/).  Per §3.1/§2.B the FAT12/16 root is the flat (offset, length)
region and the FAT32 root is a cluster-chain file starting at the root
cluster; a root file has no directory-entry editor (it has no record of
its own). -/
def rootDirM (fs : FileSystemModel) : DirM :=
  match fs.rootSpec with
  | .region o l => ⟨.root o l⟩
  | .cluster n => ⟨.file ⟨some n, none, 0, none⟩⟩

/-- `struct DirEntry` (dir_entry.rs): the parsed record, its absolute
position, and the consumed byte range. -/
structure DirEntryM where
  data : DirFileEntryData
  entryPos : Nat
  offsetRange : Nat × Nat
deriving DecidableEq, Repr

/-- Outcome of `DirEntry::to_dir`: the assert panics on a non-directory
entry. -/
inductive ToDirResult where
  | panicked
  | ok (d : DirM)
deriving DecidableEq, Repr

/-- `DirEntry::to_dir` (dir_entry.rs): assert the entry is a directory;
an entry whose stored first cluster decodes to Some n opens the chain
at n (with an editor over the entry), and one decoding to None yields
the filesystem's root directory. -/
def toDir (fs : FileSystemModel) (e : DirEntryM) : ToDirResult :=
  if e.data.isDir then
    match e.data.firstCluster fs.fatType with
    | some n => .ok ⟨.file ⟨some n, none, 0, some ⟨e.data, e.entryPos, false⟩⟩⟩
    | none => .ok (rootDirM fs)
  else .panicked

/-- C10: `to_dir` on a directory entry whose stored first-cluster field
decodes to None returns the filesystem's root directory (not an empty
directory and not an error). -/
theorem c10_to_dir_none_is_root (fs : FileSystemModel) (e : DirEntryM)
    (hdir : e.data.isDir = true) (hnone : e.data.firstCluster fs.fatType = none) :
    toDir fs e = .ok (rootDirM fs) := by
  unfold toDir
  rw [if_pos hdir, hnone]

/-- A ".." entry whose parent is the root: first-cluster field zero. -/
def c10Entry : DirEntryM :=
  ⟨mkRawEntry (generateShortName [46, 46]) 0x10 none .fat32, 96, (64, 128)⟩

/-- C10 witness: the theorem at the concrete ".." entry on a FAT32
model; the result is the root directory (the root-cluster chain). -/
theorem c10_to_dir_none_is_root_witness :
    toDir c6Fs c10Entry = .ok (rootDirM c6Fs) :=
  c10_to_dir_none_is_root c6Fs c10Entry (by decide) (by decide)
